import Mathlib

/-
  Verification development for the mcp-client repository.

  The Python source is shallowly embedded as Lean functions over explicit
  oracle structures (`World`, `ConnectWorld`, `CliWorld`) that fix the
  behaviour of the external collaborators (the JSON parser, the MCP server
  session, the OpenAI reasoning engine, the filesystem and the process
  spawner).  The client code itself is translated statement by statement;
  traces of the engine calls and tool calls issued are returned alongside
  the result so that call-counting properties can be stated.
-/

namespace MCPClient

/-- A structured (JSON-like) document, the value space of `json.loads` and
of tool argument documents. -/
inductive Json where
  | null
  | bool (b : Bool)
  | num (n : Int)
  | str (s : String)
  | arr (elems : List Json)
  | obj (fields : List (String × Json))

/-- A parsed tool-argument document: the Python `dict` produced by
`json.loads` on the arguments string. -/
def Args : Type := List (String × Json)

mutual

/-- Python `repr`/`str` rendering of a JSON value, as interpolated by the
f-string `f"[Used {tool_name}({tool_args})]"` in `_execute_tool`. -/
def pyReprJson : Json → String
  | Json.null => "None"
  | Json.bool true => "True"
  | Json.bool false => "False"
  | Json.num n => toString n
  | Json.str s => "\x27" ++ s ++ "\x27"
  | Json.arr xs => "[" ++ String.intercalate ", " (pyReprList xs) ++ "]"
  | Json.obj kvs => "\x7b" ++ String.intercalate ", " (pyReprFields kvs) ++ "\x7d"

/-- Render a list of JSON values. -/
def pyReprList : List Json → List String
  | [] => []
  | x :: xs => pyReprJson x :: pyReprList xs

/-- Render the fields of a JSON object / Python dict. -/
def pyReprFields : List (String × Json) → List String
  | [] => []
  | (k, v) :: kvs => ("\x27" ++ k ++ "\x27: " ++ pyReprJson v) :: pyReprFields kvs

end

/-- Python `str` of an argument dict. -/
def pyReprDict (a : Args) : String :=
  "\x7b" ++ String.intercalate ", " (pyReprFields a) ++ "\x7d"

/-- The `function` field of an OpenAI tool-call request:
`tool_call.function.name` and `tool_call.function.arguments`.  The empty
string models an absent/empty arguments payload (both are falsy in
Python). -/
structure ToolCallFn where
  name : String
  arguments : String
  deriving DecidableEq

/-- One requested tool invocation from the reasoning engine
(`current_message.tool_calls[i]`). -/
structure ToolCall where
  id : String
  function : ToolCallFn
  deriving DecidableEq

/-- One conversation turn, as appended to `messages` in `process_query`. -/
inductive Turn where
  | user (content : String)
  | assistant (content : String) (tool_calls : List ToolCall)
  | tool (tool_call_id : String) (content : String)
  deriving DecidableEq

/-- The message of the reasoning engine's response
(`response.choices[0].message`): optional text (the empty string models
absent text, matching Python truthiness) and a possibly empty list of
requested tool invocations. -/
structure RespMessage where
  content : String
  tool_calls : List ToolCall
  deriving DecidableEq

/-- Outcome of `client_session.call_tool`: either a result whose content
is a sequence of text parts, or an exception with a message. -/
inductive CallToolResult where
  | ok (contentParts : List String)
  | raised (message : String)

/-- A protocol-native tool descriptor as returned by
`client_session.list_tools()`.  `description = none` models an absent
description; `inputSchema = none` models the `inputSchema` attribute being
missing (the `getattr` default case). -/
structure MCPTool where
  name : String
  description : Option String
  inputSchema : Option Json

/-- The oracle fixing all external collaborators of one `process_query`
call: the JSON parser (`none` = `json.loads` raises), the server's tool
catalog, the server's tool-call behaviour, and the reasoning engine's two
responses (`Except.error` = the API call raises; for the second response
the empty string models absent text). -/
structure World where
  parse : String → Option Args
  listTools : List MCPTool
  callTool : String → Args → CallToolResult
  firstResponse : Except String RespMessage
  secondResponse : Except String String

/-- Exceptions that escape the embedded client code. -/
inductive PyError where
  | missingCredential
  | jsonDecode (arguments : String)
  | engine (message : String)
  deriving DecidableEq

/-- The call-schema format required by OpenAI: the `function` object built
by `_get_tools`. -/
structure OpenAIFn where
  name : String
  description : String
  parameters : Json

/-- One adapted tool in the list returned by `_get_tools`. -/
structure OpenAITool where
  type : String
  function : OpenAIFn

/-- The default parameter schema used by `_get_tools` when the descriptor
has no `inputSchema` attribute. -/
def emptyObjectSchema : Json :=
  Json.obj [("type", Json.str "object"), ("properties", Json.obj [])]

/-- Adaptation of one descriptor inside `_get_tools`: the name passes
through, `description or "No description"` (Python `or`: `None` and the
empty string both take the default), and `getattr(tool, "inputSchema",
{"type": "object", "properties": {}})`. -/
def adaptTool (t : MCPTool) : OpenAITool :=
  { type := "function"
    function :=
      { name := t.name
        description :=
          match t.description with
          | none => "No description"
          | some d => if d = "" then "No description" else d
        parameters := t.inputSchema.getD emptyObjectSchema } }

/-- Embedding of `OpenAIQueryHandler._get_tools`: fetch the catalog and
adapt every descriptor. -/
def getTools (w : World) : List OpenAITool :=
  w.listTools.map adaptTool

/-- The string handed to `json.loads` in `_execute_tool`:
`tool_call.function.arguments or "{}"`. -/
def argString (tc : ToolCall) : String :=
  if tc.function.arguments = "" then "\x7b\x7d" else tc.function.arguments

/-- Result of a successful `_execute_tool` call: the log string, the
`role: tool` message appended to the conversation, and (instrumentation)
the `(name, arguments)` request actually issued to `call_tool`. -/
structure ExecResult where
  log : String
  message : Turn
  invocation : String × Args

/-- Embedding of `OpenAIQueryHandler._execute_tool`.  `json.loads` runs before the
`try` block: a parse failure raises `json.JSONDecodeError` out of the
method.  Exceptions raised by `call_tool` are caught and converted into
an error log and an error tool turn. -/
def executeTool (w : World) (tc : ToolCall) : Except PyError ExecResult :=
  let tool_name := tc.function.name
  match w.parse (argString tc) with
  | none => Except.error (PyError.jsonDecode (argString tc))
  | some tool_args =>
    match w.callTool tool_name tool_args with
    | CallToolResult.ok parts =>
        let content := match parts with | [] => "" | p :: _ => p
        Except.ok
          { log := "[Used " ++ tool_name ++ "(" ++ pyReprDict tool_args ++ ")]"
            message := Turn.tool tc.id content
            invocation := (tool_name, tool_args) }
    | CallToolResult.raised e =>
        let content := "Error: " ++ e
        Except.ok
          { log := "[" ++ content ++ "]"
            message := Turn.tool tc.id content
            invocation := (tool_name, tool_args) }

/-- Whether `executeTool` succeeds (no exception escapes it). -/
def execOk (w : World) (tc : ToolCall) : Bool :=
  match executeTool w tc with
  | Except.ok _ => true
  | Except.error _ => false

/-- The log segment appended for a tool call (meaningful when `execOk`). -/
def logOf (w : World) (tc : ToolCall) : String :=
  match executeTool w tc with
  | Except.ok r => r.log
  | Except.error _ => ""

/-- The `role: tool` turn appended for a tool call (meaningful when
`execOk`). -/
def turnOf (w : World) (tc : ToolCall) : Turn :=
  match executeTool w tc with
  | Except.ok r => r.message
  | Except.error _ => Turn.tool tc.id ""

/-- The `(name, arguments)` request issued to `call_tool` for a tool call
(meaningful when `execOk`). -/
def invocationOf (w : World) (tc : ToolCall) : String × Args :=
  match executeTool w tc with
  | Except.ok r => r.invocation
  | Except.error _ => (tc.function.name, [])

/-- The tool-execution loop of `process_query` (`for tool_call in
tool_calls`): threads the conversation and the answer segments, records
every request issued to `call_tool`, and stops at the first escaping
exception. -/
def toolLoop (w : World) :
    List ToolCall → List Turn → List String →
    List (String × Args) × Except PyError (List Turn × List String)
  | [], msgs, parts => ([], Except.ok (msgs, parts))
  | tc :: rest, msgs, parts =>
    match executeTool w tc with
    | Except.error e => ([], Except.error e)
    | Except.ok r =>
        let next := toolLoop w rest (msgs ++ [r.message]) (parts ++ [r.log])
        (r.invocation :: next.1, next.2)

/-- One reasoning-engine request as issued by `process_query`: the
conversation sent and the tool list attached (`none` when the `tools`
keyword is not passed). -/
structure EngineCallRec where
  messages : List Turn
  tools : Option (List OpenAITool)

/-- Instrumentation of one `process_query` run: every reasoning-engine
request and every `call_tool` request, in issue order. -/
structure Trace where
  engine : List EngineCallRec
  tools : List (String × Args)

/-- Embedding of `OpenAIQueryHandler.process_query`, instrumented with the trace of
requests issued.  The second component is the returned string, or the
escaping exception. -/
def processQuery (w : World) (query : String) : Trace × Except PyError String :=
  let messages : List Turn := [Turn.user query]
  let firstCall : EngineCallRec := ⟨messages, some (getTools w)⟩
  match w.firstResponse with
  | Except.error e => (⟨[firstCall], []⟩, Except.error (PyError.engine e))
  | Except.ok cm =>
    let result_parts : List String := if cm.content = "" then [] else [cm.content]
    match cm.tool_calls with
    | [] =>
        (⟨[firstCall], []⟩,
         Except.ok ("Assistant: " ++ String.intercalate "\n" result_parts))
    | tc :: rest =>
        let messages := messages ++ [Turn.assistant cm.content (tc :: rest)]
        match toolLoop w (tc :: rest) messages result_parts with
        | (tr, Except.error e) => (⟨[firstCall], tr⟩, Except.error e)
        | (tr, Except.ok (messages2, parts2)) =>
            let secondCall : EngineCallRec := ⟨messages2, none⟩
            match w.secondResponse with
            | Except.error e =>
                (⟨[firstCall, secondCall], tr⟩, Except.error (PyError.engine e))
            | Except.ok content =>
                let parts3 := if content = "" then parts2 else parts2 ++ [content]
                (⟨[firstCall, secondCall], tr⟩,
                 Except.ok ("Assistant: " ++ String.intercalate "\n" parts3))

/-- The state of a constructed `OpenAIQueryHandler`. -/
structure OpenAIQueryHandler where
  apiKey : String

/-- Embedding of `OpenAIQueryHandler.__init__`: reads `OPENAI_API_KEY` from the
environment and raises when it is unset or empty (Python falsiness of
`os.getenv`). -/
def handlerInit (getenv : String → Option String) :
    Except PyError OpenAIQueryHandler :=
  match getenv "OPENAI_API_KEY" with
  | none => Except.error PyError.missingCredential
  | some k => if k = "" then Except.error PyError.missingCredential else Except.ok ⟨k⟩

/-- An initialized protocol session (abstract). -/
structure Session where
  sessionId : Nat
  deriving DecidableEq

/-- The oracle for `MCPClient._connect_to_server`: path resolution and
existence on the filesystem, and the combined behaviour of
`stdio_client` + `ClientSession(...)` + `initialize()` (`Except.error` =
some exception is raised while spawning or handshaking). -/
structure ConnectWorld where
  resolve : String → String
  pathExists : String → Bool
  spawnAndInit : String → Except String Session

/-- Connection failures surfaced by `_connect_to_server` (both are
`RuntimeError` in the source; the constructors keep them apart and keep
the wrapped cause). -/
inductive ConnError where
  | notFound (path : String)
  | handshakeFailed (cause : String)
  deriving DecidableEq

/-- The message carried by the `RuntimeError` raised by
`_connect_to_server`. -/
def connErrorMessage : ConnError → String
  | ConnError.notFound p => "Server script not found: " ++ p
  | ConnError.handshakeFailed c => "Failed to connect to server: " ++ c

/-- Outcome of `_connect_to_server`: whether a spawn was ever attempted,
and the result. -/
structure ConnectOutcome where
  spawned : Bool
  result : Except ConnError Session

/-- Embedding of `MCPClient._connect_to_server`: resolve the path, raise not-found if
it does not exist (before any spawn), otherwise spawn + handshake and
wrap any exception into a `RuntimeError` with the cause attached. -/
def connectToServer (w : ConnectWorld) (serverPath : String) : ConnectOutcome :=
  let p := w.resolve serverPath
  if w.pathExists p = false then
    ⟨false, Except.error (ConnError.notFound p)⟩
  else
    match w.spawnAndInit p with
    | Except.ok s => ⟨true, Except.ok s⟩
    | Except.error e => ⟨true, Except.error (ConnError.handshakeFailed e)⟩

/-- The oracle for the command-line entry point `main`: the unresolved
existence check done in `__main__`, the connection oracle used inside
`MCPClient.__aenter__`, and the output printed by the selected body
(`list_all_members` or `run_chat`, both of which catch their own
errors). -/
structure CliWorld where
  rawExists : String → Bool
  cw : ConnectWorld
  membersOut : List String
  chatOut : List String

/-- Embedding of `__main__.main` (as run by `asyncio.run`): returns the printed lines
and the process exit status.  Both failure paths `print` and return
normally, so the entry point finishes with status 0. -/
def mainRun (w : CliWorld) (serverPath : String) (members chatMode : Bool) :
    List String × Nat :=
  if w.rawExists serverPath = false then
    (["Error: Server script \x27" ++ serverPath ++ "\x27 not found"], 0)
  else
    match (connectToServer w.cw serverPath).result with
    | Except.error e => ([connErrorMessage e], 0)
    | Except.ok _ =>
        (if members then w.membersOut else if chatMode then w.chatOut else [], 0)

/-
  General lemmas about the embedded operations.
-/

/-- When every tool call in the list executes without an escaping
exception, the loop records every invocation in order and appends one
tool turn and one log segment per call, in order. -/
theorem toolLoop_all_ok (w : World) (tcs : List ToolCall) :
    ∀ (msgs : List Turn) (parts : List String),
    tcs.all (execOk w) = true →
    toolLoop w tcs msgs parts =
      (tcs.map (invocationOf w),
       Except.ok (msgs ++ tcs.map (turnOf w), parts ++ tcs.map (logOf w))) := by
  induction tcs with
  | nil => intro msgs parts _; simp [toolLoop]
  | cons tc rest ih =>
    intro msgs parts hall
    rw [List.all_cons, Bool.and_eq_true] at hall
    obtain ⟨h1, h2⟩ := hall
    unfold execOk at h1
    cases hr : executeTool w tc with
    | error e => rw [hr] at h1; simp at h1
    | ok r =>
      simp only [toolLoop, hr, ih _ _ h2, List.map_cons]
      simp [invocationOf, turnOf, logOf, hr, List.append_assoc]

/-- The loop stops at the first tool call whose execution raises an
escaping exception: the calls before it are issued, the failing one and
everything after it are not, and the exception propagates. -/
theorem toolLoop_abort (w : World) (l1 : List ToolCall) (tc : ToolCall)
    (l2 : List ToolCall) (e : PyError) :
    ∀ (msgs : List Turn) (parts : List String),
    l1.all (execOk w) = true →
    executeTool w tc = Except.error e →
    toolLoop w (l1 ++ tc :: l2) msgs parts =
      (l1.map (invocationOf w), Except.error e) := by
  induction l1 with
  | nil => intro msgs parts _ he; simp [toolLoop, he]
  | cons a as ih =>
    intro msgs parts hall he
    rw [List.all_cons, Bool.and_eq_true] at hall
    obtain ⟨h1, h2⟩ := hall
    unfold execOk at h1
    cases hr : executeTool w a with
    | error e2 => rw [hr] at h1; simp at h1
    | ok r =>
      simp only [List.cons_append, toolLoop, hr, List.map_cons]
      simp [invocationOf, hr, ih _ _ h2 he]

/-- Characterization of `process_query` when the first response requests
at least one tool invocation and every requested invocation executes
without an escaping exception. -/
theorem processQuery_with_tools (w : World) (q : String) (cm : RespMessage)
    (tc : ToolCall) (rest : List ToolCall)
    (h1 : w.firstResponse = Except.ok cm)
    (h2 : cm.tool_calls = tc :: rest)
    (hall : (tc :: rest).all (execOk w) = true) :
    processQuery w q =
      (⟨[⟨[Turn.user q], some (getTools w)⟩,
         ⟨[Turn.user q, Turn.assistant cm.content (tc :: rest)] ++
            (tc :: rest).map (turnOf w), none⟩],
        (tc :: rest).map (invocationOf w)⟩,
       match w.secondResponse with
       | Except.error e => Except.error (PyError.engine e)
       | Except.ok content =>
           Except.ok ("Assistant: " ++ String.intercalate "\n"
             ((if cm.content = "" then [] else [cm.content]) ++
              (tc :: rest).map (logOf w) ++
              (if content = "" then [] else [content])))) := by
  unfold processQuery
  rw [h1]
  simp only [h2]
  rw [toolLoop_all_ok w (tc :: rest) _ _ hall]
  cases hs : w.secondResponse with
  | error e => simp
  | ok content =>
    by_cases hc : content = "" <;> simp [hc, List.append_assoc]

/-- Joining no segments gives the empty string. -/
theorem intercalate_nil (s : String) : String.intercalate s [] = "" := rfl

/-- Joining a single segment gives that segment. -/
theorem intercalate_single (s a : String) : String.intercalate s [a] = a := rfl

/-- Characterization of `process_query` when the first response requests
no tool invocations. -/
theorem processQuery_no_tools (w : World) (q : String) (cm : RespMessage)
    (h1 : w.firstResponse = Except.ok cm)
    (h2 : cm.tool_calls = []) :
    processQuery w q =
      (⟨[⟨[Turn.user q], some (getTools w)⟩], []⟩,
       Except.ok ("Assistant: " ++ cm.content)) := by
  unfold processQuery
  rw [h1]
  simp only [h2]
  by_cases hc : cm.content = "" <;> simp [hc, intercalate_nil, intercalate_single]

/-- Characterization of `process_query` when some requested invocation
raises an escaping exception (only `json.loads` can): the calls before it
are issued, the exception propagates, and no second engine call is
issued. -/
theorem processQuery_abort (w : World) (q : String) (cm : RespMessage)
    (l1 : List ToolCall) (tc : ToolCall) (l2 : List ToolCall) (e : PyError)
    (h1 : w.firstResponse = Except.ok cm)
    (h2 : cm.tool_calls = l1 ++ tc :: l2)
    (hl1 : l1.all (execOk w) = true)
    (he : executeTool w tc = Except.error e) :
    processQuery w q =
      (⟨[⟨[Turn.user q], some (getTools w)⟩], l1.map (invocationOf w)⟩,
       Except.error e) := by
  unfold processQuery
  rw [h1]
  have habort := toolLoop_abort w l1 tc l2 e
      ([Turn.user q] ++ [Turn.assistant cm.content (l1 ++ tc :: l2)])
      (if cm.content = "" then [] else [cm.content]) hl1 he
  cases l1 with
  | nil =>
      simp only [List.nil_append] at habort
      simp only [h2, List.nil_append, habort]
  | cons a as =>
      simp only [List.cons_append] at habort
      simp only [h2, List.cons_append, habort]

/-- Every error escaping `executeTool` is the JSON decode error on the
argument string. -/
theorem executeTool_error_shape (w : World) (tc : ToolCall) (e : PyError)
    (h : executeTool w tc = Except.error e) :
    e = PyError.jsonDecode (argString tc) := by
  unfold executeTool at h
  cases hp : w.parse (argString tc) with
  | none =>
      simp only [hp] at h
      injection h with h
      exact h.symm
  | some a =>
      simp only [hp] at h
      cases hc : w.callTool tc.function.name a <;> simp only [hc] at h <;>
        exact Except.noConfusion h

/-- Every error escaping the tool loop comes from `executeTool` on one of
the requested calls. -/
theorem toolLoop_error_src (w : World) (tcs : List ToolCall) :
    ∀ (msgs : List Turn) (parts : List String) (tr : List (String × Args))
      (e : PyError),
    toolLoop w tcs msgs parts = (tr, Except.error e) →
    ∃ tc, tc ∈ tcs ∧ executeTool w tc = Except.error e := by
  induction tcs with
  | nil => intro msgs parts tr e h; simp [toolLoop] at h
  | cons tc rest ih =>
    intro msgs parts tr e h
    unfold toolLoop at h
    cases hr : executeTool w tc with
    | error e2 =>
        rw [hr] at h
        simp only [Prod.mk.injEq] at h
        obtain ⟨-, h2⟩ := h
        injection h2 with h2
        exact ⟨tc, by simp, by rw [hr, h2]⟩
    | ok r =>
        rw [hr] at h
        simp only [Prod.mk.injEq] at h
        obtain ⟨-, h2⟩ := h
        obtain ⟨tc2, hmem, hexec⟩ :=
          ih (msgs ++ [r.message]) (parts ++ [r.log])
             (toolLoop w rest (msgs ++ [r.message]) (parts ++ [r.log])).1 e
             (by rw [← h2])
        exact ⟨tc2, by simp [hmem], hexec⟩

/-- A list on which `all p` fails splits at the first element failing
`p`. -/
theorem exists_first_failure {α : Type} (p : α → Bool) :
    ∀ (l : List α), l.all p = false →
    ∃ l1 x l2, l = l1 ++ x :: l2 ∧ l1.all p = true ∧ p x = false := by
  intro l
  induction l with
  | nil => intro h; simp at h
  | cons a as ih =>
    intro h
    cases hpa : p a with
    | false => exact ⟨[], a, as, rfl, rfl, hpa⟩
    | true =>
      rw [List.all_cons, hpa, Bool.true_and] at h
      obtain ⟨l1, x, l2, hsplit, hall, hx⟩ := ih h
      exact ⟨a :: l1, x, l2, by rw [hsplit, List.cons_append],
             by rw [List.all_cons, hpa, Bool.true_and]; exact hall, hx⟩

/-- Characterization of `process_query` when the first reasoning-engine
call raises. -/
theorem processQuery_first_call_error (w : World) (q : String) (e : String)
    (h : w.firstResponse = Except.error e) :
    processQuery w q =
      (⟨[⟨[Turn.user q], some (getTools w)⟩], []⟩,
       Except.error (PyError.engine e)) := by
  unfold processQuery
  rw [h]

/-- No execution path of `process_query` raises the missing-credential
error: that error exists only in `__init__`. -/
theorem processQuery_not_missing (w : World) (q : String) :
    (processQuery w q).2 ≠ Except.error PyError.missingCredential := by
  cases hfr : w.firstResponse with
  | error e =>
      rw [processQuery_first_call_error w q e hfr]
      simp
  | ok cm =>
      cases htc : cm.tool_calls with
      | nil =>
          rw [processQuery_no_tools w q cm hfr htc]
          simp
      | cons tc rest =>
          cases hall : (tc :: rest).all (execOk w) with
          | true =>
              rw [processQuery_with_tools w q cm tc rest hfr htc hall]
              cases w.secondResponse <;> simp
          | false =>
              obtain ⟨l1, x, l2, hsplit, hl1, hx⟩ :=
                exists_first_failure (execOk w) (tc :: rest) hall
              cases hex : executeTool w x with
              | ok r => rw [execOk, hex] at hx; exact Bool.noConfusion hx
              | error e =>
                  rw [processQuery_abort w q cm l1 x l2 e hfr
                        (by rw [htc, hsplit]) hl1 hex]
                  have hshape := executeTool_error_shape w x e hex
                  simp [hshape]

/-
  Claim C1.
-/

/-- A tool call whose arguments payload is empty (replaced by the empty
document). -/
def tcEmptyArgs : ToolCall := ⟨"call_1", ⟨"echo", ""⟩⟩

/-- A tool call whose arguments string does not parse as JSON. -/
def tcBadArgs : ToolCall := ⟨"call_2", ⟨"echo", "not-json"⟩⟩

/-- World for the C1 counterexample: the first response requests two tool
invocations and the second one carries malformed arguments. -/
def wC1x : World :=
  { parse := fun s => if s = "\x7b\x7d" then some [] else none
    listTools := []
    callTool := fun _ _ => CallToolResult.ok ["ok"]
    firstResponse := Except.ok ⟨"", [tcEmptyArgs, tcBadArgs]⟩
    secondResponse := Except.ok "Done." }

/-- C1 (counterexample): a first response requesting N = 2 tool
invocations where the second invocation's arguments string fails to
parse.  `process_query` issues only one reasoning-engine call (not two)
and only one tool call (not two): the claim's unconditional call counts
fail on the code. -/
theorem c1_counterexample :
    wC1x.firstResponse = Except.ok ⟨"", [tcEmptyArgs, tcBadArgs]⟩ ∧
    (processQuery wC1x "echo twice").1.engine.length = 1 ∧
    (processQuery wC1x "echo twice").1.engine.length ≠ 2 ∧
    (processQuery wC1x "echo twice").1.tools.length = 1 := by
  refine ⟨rfl, rfl, by decide, rfl⟩

/-- C1 (amended): for every query whose first reasoning-engine response
requests N >= 1 tool invocations, provided every requested invocation's
arguments string parses (equivalently, no `json.loads` exception escapes
any `_execute_tool` call) and the second engine call succeeds,
`process_query` issues exactly two reasoning-engine calls (the second one
without the tool list attached) and exactly N tool calls, executes them
in the exact order listed, and the answer contains the N log segments in
that same order. -/
theorem c1_query_with_tools (w : World) (q : String) (cm : RespMessage)
    (tc : ToolCall) (rest : List ToolCall) (s : String)
    (h1 : w.firstResponse = Except.ok cm)
    (h2 : cm.tool_calls = tc :: rest)
    (hall : (tc :: rest).all (execOk w) = true)
    (h3 : w.secondResponse = Except.ok s) :
    (processQuery w q).1.engine.map EngineCallRec.tools =
        [some (getTools w), none] ∧
    (processQuery w q).1.engine.length = 2 ∧
    (processQuery w q).1.tools = cm.tool_calls.map (invocationOf w) ∧
    (processQuery w q).1.tools.length = cm.tool_calls.length ∧
    (processQuery w q).2 = Except.ok ("Assistant: " ++ String.intercalate "\n"
      ((if cm.content = "" then [] else [cm.content]) ++
       cm.tool_calls.map (logOf w) ++ (if s = "" then [] else [s]))) := by
  rw [processQuery_with_tools w q cm tc rest h1 h2 hall, h3, h2]
  exact ⟨rfl, rfl, rfl, by simp, rfl⟩

/-- World for the C1 witness: one invocation requested, it executes, the
second call answers. -/
def wC1 : World :=
  { parse := fun s => if s = "\x7b\x7d" then some [] else none
    listTools := [⟨"echo", some "echoes input", none⟩]
    callTool := fun _ _ => CallToolResult.ok ["hi"]
    firstResponse := Except.ok ⟨"", [tcEmptyArgs]⟩
    secondResponse := Except.ok "Done." }

/-- Witness for C1 (amended) at a concrete world. -/
theorem c1_witness :
    (processQuery wC1 "echo hi").1.engine.map EngineCallRec.tools =
        [some (getTools wC1), none] ∧
    (processQuery wC1 "echo hi").1.engine.length = 2 ∧
    (processQuery wC1 "echo hi").1.tools = [("echo", ([] : Args))] ∧
    (processQuery wC1 "echo hi").2 =
      Except.ok "Assistant: [Used echo(\x7b\x7d)]\nDone." := by
  have h := c1_query_with_tools wC1 "echo hi" ⟨"", [tcEmptyArgs]⟩
      tcEmptyArgs [] "Done." rfl rfl rfl rfl
  refine ⟨h.1, h.2.1, ?_, ?_⟩
  · rw [h.2.2.1]; rfl
  · rw [h.2.2.2.2]; rfl

/-
  Claim C2.
-/

/-- World for C2: the first response has text and requests no tool
invocations. -/
def wC2 : World :=
  { parse := fun _ => some []
    listTools := [⟨"echo", some "echoes input", none⟩]
    callTool := fun _ _ => CallToolResult.ok []
    firstResponse := Except.ok ⟨"You have an echo tool.", []⟩
    secondResponse := Except.ok "" }

/-- C2 (counterexample): with zero tool invocations requested, the string
returned by `process_query` is the first-call text prefixed with
"Assistant: ", not the first-call text exactly. -/
theorem c2_counterexample :
    wC2.firstResponse = Except.ok ⟨"You have an echo tool.", []⟩ ∧
    (processQuery wC2 "What tools are available?").2 =
      Except.ok "Assistant: You have an echo tool." ∧
    "Assistant: You have an echo tool." ≠ "You have an echo tool." := by
  refine ⟨rfl, rfl, by decide⟩

/-- C2 (amended): for every query whose first reasoning-engine response
requests zero tool invocations, `process_query` issues exactly one
reasoning-engine call and zero tool calls, and returns "Assistant: "
followed by the first call's text (so just "Assistant: " when the
response has no text). -/
theorem c2_query_no_tools (w : World) (q : String) (cm : RespMessage)
    (h1 : w.firstResponse = Except.ok cm)
    (h2 : cm.tool_calls = []) :
    (processQuery w q).1.engine.length = 1 ∧
    (processQuery w q).1.tools = [] ∧
    (processQuery w q).2 = Except.ok ("Assistant: " ++ cm.content) := by
  rw [processQuery_no_tools w q cm h1 h2]
  exact ⟨rfl, rfl, rfl⟩

/-- Witness for C2 (amended) at a concrete world. -/
theorem c2_witness :
    (processQuery wC2 "What tools are available?").1.engine.length = 1 ∧
    (processQuery wC2 "What tools are available?").1.tools = [] ∧
    (processQuery wC2 "What tools are available?").2 =
      Except.ok ("Assistant: " ++ "You have an echo tool.") :=
  c2_query_no_tools wC2 "What tools are available?"
    ⟨"You have an echo tool.", []⟩ rfl rfl

/-
  Claim C3.
-/

/-- World for the C3 counterexample: a single requested invocation whose
arguments string does not parse. -/
def wC3 : World :=
  { parse := fun s => if s = "\x7b\x7d" then some [] else none
    listTools := []
    callTool := fun _ _ => CallToolResult.ok ["hi"]
    firstResponse := Except.ok ⟨"", [tcBadArgs]⟩
    secondResponse := Except.ok "Done." }

/-- C3 (counterexample): an invocation whose arguments string fails to
parse is never executed (no `call_tool` request is issued) and the parse
failure propagates out of `process_query` as an exception, because
`json.loads` runs outside the `try` block. -/
theorem c3_counterexample :
    wC3.parse "not-json" = none ∧
    (processQuery wC3 "echo").1.tools = [] ∧
    (processQuery wC3 "echo").2 =
      Except.error (PyError.jsonDecode "not-json") := by
  refine ⟨rfl, rfl, rfl⟩

/-- C3 (amended): an invocation whose arguments string is absent or empty
is executed with the empty argument document; but an invocation whose
arguments string is non-empty and fails to parse is not executed at all —
the parse failure aborts the loop and propagates out of `process_query`
(only the invocations listed before it are executed). -/
theorem c3_arguments_policy (w : World) (q : String) (cm : RespMessage)
    (tc0 tc : ToolCall) (l1 l2 : List ToolCall)
    (hempty0 : tc0.function.arguments = "")
    (hjson : w.parse "\x7b\x7d" = some [])
    (h1 : w.firstResponse = Except.ok cm)
    (h2 : cm.tool_calls = l1 ++ tc :: l2)
    (hl1 : l1.all (execOk w) = true)
    (hbad : tc.function.arguments ≠ "")
    (hparse : w.parse tc.function.arguments = none) :
    execOk w tc0 = true ∧
    invocationOf w tc0 = (tc0.function.name, []) ∧
    executeTool w tc = Except.error (PyError.jsonDecode tc.function.arguments) ∧
    (processQuery w q).2 =
      Except.error (PyError.jsonDecode tc.function.arguments) ∧
    (processQuery w q).1.tools = l1.map (invocationOf w) := by
  have harg0 : argString tc0 = "\x7b\x7d" := by
    unfold argString; rw [hempty0]; rfl
  have harg : argString tc = tc.function.arguments := if_neg hbad
  have hexec : executeTool w tc =
      Except.error (PyError.jsonDecode tc.function.arguments) := by
    unfold executeTool
    rw [harg, hparse]
  have hmain := processQuery_abort w q cm l1 tc l2
      (PyError.jsonDecode tc.function.arguments) h1 h2 hl1 hexec
  refine ⟨?_, ?_, hexec, ?_, ?_⟩
  · unfold execOk executeTool
    simp only [harg0, hjson]
    cases hc : w.callTool tc0.function.name [] <;> simp [hc]
  · unfold invocationOf executeTool
    simp only [harg0, hjson]
    cases hc : w.callTool tc0.function.name [] <;> simp [hc]
  · rw [hmain]
  · rw [hmain]

/-- World for the C3 witness: an empty-arguments invocation executes,
then a malformed-arguments invocation aborts the query. -/
def wC3w : World :=
  { parse := fun s => if s = "\x7b\x7d" then some [] else none
    listTools := []
    callTool := fun _ _ => CallToolResult.ok ["pong"]
    firstResponse := Except.ok ⟨"", [tcEmptyArgs, tcBadArgs]⟩
    secondResponse := Except.ok "Done." }

/-- Witness for C3 (amended) at a concrete world. -/
theorem c3_witness :
    execOk wC3w tcEmptyArgs = true ∧
    invocationOf wC3w tcEmptyArgs = ("echo", ([] : Args)) ∧
    executeTool wC3w tcBadArgs =
      Except.error (PyError.jsonDecode "not-json") ∧
    (processQuery wC3w "go").2 =
      Except.error (PyError.jsonDecode "not-json") ∧
    (processQuery wC3w "go").1.tools = [tcEmptyArgs].map (invocationOf wC3w) :=
  c3_arguments_policy wC3w "go" ⟨"", [tcEmptyArgs, tcBadArgs]⟩
    tcEmptyArgs tcBadArgs [tcEmptyArgs] [] rfl rfl rfl rfl rfl
    (by decide) rfl

/-
  Claim C4.
-/

/-- A tool call naming a tool whose execution raises. -/
def tcBoom : ToolCall := ⟨"call_1", ⟨"boom", ""⟩⟩

/-- World for the C4 counterexample: the requested invocation's execution
raises (which is recovered), but the second reasoning-engine call then
fails, so no synthesized answer is produced. -/
def wC4x : World :=
  { parse := fun s => if s = "\x7b\x7d" then some [] else none
    listTools := []
    callTool := fun _ _ => CallToolResult.raised "tool exploded"
    firstResponse := Except.ok ⟨"", [tcBoom]⟩
    secondResponse := Except.error "engine down" }

/-- C4 (counterexample): a tool invocation whose execution raises is
recovered locally, yet `process_query` still raises and produces no
synthesized answer, because the second reasoning-engine call fails: the
claim's unconditional "the query still completes with a synthesized
answer" fails on the code. -/
theorem c4_counterexample :
    wC4x.callTool "boom" [] = CallToolResult.raised "tool exploded" ∧
    logOf wC4x tcBoom = "[Error: tool exploded]" ∧
    (processQuery wC4x "go").2 =
      Except.error (PyError.engine "engine down") := by
  refine ⟨rfl, rfl, rfl⟩

/-- C4 (amended): for every tool invocation whose execution raises a
failure, the failure is recovered locally: the invocation yields a log
segment equal to the error text wrapped in brackets and a tool turn whose
content is the error text, both of which reach the conversation of the
second reasoning-engine call, all requested invocations are still issued
in order, and — provided every requested invocation's arguments parse and
the second reasoning-engine call succeeds — the query completes with a
synthesized answer. -/
theorem c4_tool_failure_recovered (w : World) (q : String) (cm : RespMessage)
    (tc : ToolCall) (rest : List ToolCall) (tcFail : ToolCall) (a : Args)
    (e s : String)
    (h1 : w.firstResponse = Except.ok cm)
    (h2 : cm.tool_calls = tc :: rest)
    (hmem : tcFail ∈ cm.tool_calls)
    (hargs : w.parse (argString tcFail) = some a)
    (hcall : w.callTool tcFail.function.name a = CallToolResult.raised e)
    (hall : (tc :: rest).all (execOk w) = true)
    (hs : w.secondResponse = Except.ok s) :
    logOf w tcFail = "[" ++ ("Error: " ++ e) ++ "]" ∧
    turnOf w tcFail = Turn.tool tcFail.id ("Error: " ++ e) ∧
    ("[" ++ ("Error: " ++ e) ++ "]") ∈ cm.tool_calls.map (logOf w) ∧
    Turn.tool tcFail.id ("Error: " ++ e) ∈ cm.tool_calls.map (turnOf w) ∧
    (processQuery w q).1.engine.map EngineCallRec.messages =
      [[Turn.user q],
       [Turn.user q, Turn.assistant cm.content cm.tool_calls] ++
         cm.tool_calls.map (turnOf w)] ∧
    (processQuery w q).1.tools = cm.tool_calls.map (invocationOf w) ∧
    (processQuery w q).2 = Except.ok ("Assistant: " ++ String.intercalate "\n"
      ((if cm.content = "" then [] else [cm.content]) ++
       cm.tool_calls.map (logOf w) ++ (if s = "" then [] else [s]))) := by
  have hexec : executeTool w tcFail = Except.ok
      { log := "[" ++ ("Error: " ++ e) ++ "]"
        message := Turn.tool tcFail.id ("Error: " ++ e)
        invocation := (tcFail.function.name, a) } := by
    unfold executeTool
    simp only [hargs, hcall]
  have hlog : logOf w tcFail = "[" ++ ("Error: " ++ e) ++ "]" := by
    unfold logOf; rw [hexec]
  have hturn : turnOf w tcFail = Turn.tool tcFail.id ("Error: " ++ e) := by
    unfold turnOf; rw [hexec]
  have hchar := processQuery_with_tools w q cm tc rest h1 h2 hall
  refine ⟨hlog, hturn, ?_, ?_, ?_, ?_, ?_⟩
  · rw [← hlog]; exact List.mem_map_of_mem (logOf w) hmem
  · rw [← hturn]; exact List.mem_map_of_mem (turnOf w) hmem
  · rw [hchar, h2]; rfl
  · rw [hchar, h2]
  · rw [hchar, hs, h2]

/-- A tool call whose execution succeeds. -/
def tcEcho2 : ToolCall := ⟨"call_2", ⟨"echo", ""⟩⟩

/-- World for the C4 witness: the first invocation's execution raises,
the second succeeds, and the second engine call synthesizes an answer. -/
def wC4 : World :=
  { parse := fun s => if s = "\x7b\x7d" then some [] else none
    listTools := []
    callTool := fun n _ =>
      if n = "boom" then CallToolResult.raised "tool exploded"
      else CallToolResult.ok ["hi"]
    firstResponse := Except.ok ⟨"", [tcBoom, tcEcho2]⟩
    secondResponse := Except.ok "Done." }

/-- Witness for C4 (amended) at a concrete world. -/
theorem c4_witness :
    logOf wC4 tcBoom = "[Error: tool exploded]" ∧
    turnOf wC4 tcBoom = Turn.tool "call_1" "Error: tool exploded" ∧
    (processQuery wC4 "go").1.tools =
      [("boom", ([] : Args)), ("echo", ([] : Args))] ∧
    (processQuery wC4 "go").2 =
      Except.ok "Assistant: [Error: tool exploded]\n[Used echo(\x7b\x7d)]\nDone." := by
  have h := c4_tool_failure_recovered wC4 "go" ⟨"", [tcBoom, tcEcho2]⟩
      tcBoom [tcEcho2] tcBoom [] "tool exploded" "Done."
      rfl rfl (List.mem_cons_self tcBoom [tcEcho2]) rfl rfl rfl rfl
  refine ⟨by rw [h.1]; rfl, by rw [h.2.1]; rfl, ?_, ?_⟩
  · rw [h.2.2.2.2.2.1]; rfl
  · rw [h.2.2.2.2.2.2]; rfl

/-
  Claim C5.
-/

/-- C5: for every executable path that does not exist (after resolution),
`_connect_to_server` fails with the not-found connection error and never
attempts a spawn: the existence check precedes any spawn attempt. -/
theorem c5_connect_notfound (w : ConnectWorld) (p : String)
    (h : w.pathExists (w.resolve p) = false) :
    connectToServer w p =
      ⟨false, Except.error (ConnError.notFound (w.resolve p))⟩ := by
  unfold connectToServer
  simp [h]

/-- Connection world for the C5 witness: no path exists. -/
def wC5 : ConnectWorld :=
  { resolve := fun s => "/abs/" ++ s
    pathExists := fun _ => false
    spawnAndInit := fun _ => Except.ok ⟨0⟩ }

/-- Witness for C5 at a concrete world. -/
theorem c5_witness :
    connectToServer wC5 "server.py" =
      ⟨false, Except.error (ConnError.notFound (wC5.resolve "server.py"))⟩ :=
  c5_connect_notfound wC5 "server.py" rfl

/-
  Claim C6.
-/

/-- C6: every exception raised while spawning or handshaking is wrapped
into the handshake-failed connection error with the underlying cause
attached (and its message embeds the cause); the raw exception is never
surfaced unchanged. -/
theorem c6_connect_wraps (w : ConnectWorld) (p : String) (e : String)
    (hex : w.pathExists (w.resolve p) = true)
    (hfail : w.spawnAndInit (w.resolve p) = Except.error e) :
    connectToServer w p =
      ⟨true, Except.error (ConnError.handshakeFailed e)⟩ ∧
    connErrorMessage (ConnError.handshakeFailed e) =
      "Failed to connect to server: " ++ e := by
  refine ⟨?_, rfl⟩
  unfold connectToServer
  simp [hex, hfail]

/-- Connection world for the C6 witness: the path exists but the spawn or
handshake raises. -/
def wC6 : ConnectWorld :=
  { resolve := fun s => s
    pathExists := fun _ => true
    spawnAndInit := fun _ => Except.error "handshake rejected" }

/-- Witness for C6 at a concrete world. -/
theorem c6_witness :
    connectToServer wC6 "server.py" =
      ⟨true, Except.error (ConnError.handshakeFailed "handshake rejected")⟩ :=
  (c6_connect_wraps wC6 "server.py" "handshake rejected" rfl rfl).1

/-
  Claim C7.
-/

/-- C7: constructing the query orchestrator with no reasoning-engine
credential in the environment raises the configuration error at
construction time, and `process_query` never raises the
missing-credential error mid-query. -/
theorem c7_credential_check (getenv : String → Option String) (w : World)
    (q : String)
    (h : getenv "OPENAI_API_KEY" = none) :
    handlerInit getenv = Except.error PyError.missingCredential ∧
    (processQuery w q).2 ≠ Except.error PyError.missingCredential := by
  refine ⟨?_, processQuery_not_missing w q⟩
  unfold handlerInit
  rw [h]

/-- World for the C7 witness. -/
def wC7 : World :=
  { parse := fun _ => some []
    listTools := []
    callTool := fun _ _ => CallToolResult.ok []
    firstResponse := Except.ok ⟨"hello", []⟩
    secondResponse := Except.ok "" }

/-- Witness for C7 at a concrete environment and world. -/
theorem c7_witness :
    handlerInit (fun _ => none) = Except.error PyError.missingCredential ∧
    (processQuery wC7 "hi").2 ≠ Except.error PyError.missingCredential :=
  c7_credential_check (fun _ => none) wC7 "hi" rfl

/-
  Claim C8.
-/

/-- C8: when the second reasoning-engine call fails, `process_query`
surfaces the failure as an error and returns no partial answer: the
result is never a success value, so the first-call text and the tool log
segments already gathered are discarded. -/
theorem c8_second_call_failure (w : World) (q : String) (cm : RespMessage)
    (tc : ToolCall) (rest : List ToolCall) (e : String)
    (h1 : w.firstResponse = Except.ok cm)
    (h2 : cm.tool_calls = tc :: rest)
    (hall : (tc :: rest).all (execOk w) = true)
    (hs : w.secondResponse = Except.error e) :
    (processQuery w q).2 = Except.error (PyError.engine e) ∧
    ∀ s : String, (processQuery w q).2 ≠ Except.ok s := by
  have h := processQuery_with_tools w q cm tc rest h1 h2 hall
  rw [h, hs]
  refine ⟨rfl, ?_⟩
  intro s hcontra
  exact Except.noConfusion hcontra

/-- World for the C8 witness: first-call text present, one tool call
executed, then the second engine call fails. -/
def wC8 : World :=
  { parse := fun s => if s = "\x7b\x7d" then some [] else none
    listTools := []
    callTool := fun _ _ => CallToolResult.ok ["hi"]
    firstResponse := Except.ok ⟨"first text", [tcEmptyArgs]⟩
    secondResponse := Except.error "rate limited" }

/-- Witness for C8 at a concrete world. -/
theorem c8_witness :
    (processQuery wC8 "go").2 = Except.error (PyError.engine "rate limited") :=
  (c8_second_call_failure wC8 "go" ⟨"first text", [tcEmptyArgs]⟩
    tcEmptyArgs [] "rate limited" rfl rfl rfl rfl).1

/-
  Claim C9.
-/

/-- C9: for every descriptor fetched from the server, the catalog
adaptation keeps the name unchanged, substitutes the fixed placeholder
when the description is absent, and substitutes the empty-object schema
when the server supplies no parameter schema. -/
theorem c9_catalog_adaptation (w : World) (t : MCPTool)
    (ht : t ∈ w.listTools) :
    adaptTool t ∈ getTools w ∧
    (adaptTool t).function.name = t.name ∧
    (t.description = none →
      (adaptTool t).function.description = "No description") ∧
    (t.inputSchema = none →
      (adaptTool t).function.parameters = emptyObjectSchema) := by
  refine ⟨List.mem_map_of_mem adaptTool ht, rfl, ?_, ?_⟩
  · intro h; simp [adaptTool, h]
  · intro h; simp [adaptTool, h]

/-- A descriptor with neither description nor schema. -/
def bareTool : MCPTool := ⟨"echo", none, none⟩

/-- World for the C9 witness. -/
def wC9 : World :=
  { parse := fun _ => some []
    listTools := [bareTool]
    callTool := fun _ _ => CallToolResult.ok []
    firstResponse := Except.ok ⟨"", []⟩
    secondResponse := Except.ok "" }

/-- Witness for C9 at a concrete descriptor. -/
theorem c9_witness :
    adaptTool bareTool ∈ getTools wC9 ∧
    (adaptTool bareTool).function.name = "echo" ∧
    (adaptTool bareTool).function.description = "No description" ∧
    (adaptTool bareTool).function.parameters = emptyObjectSchema := by
  have h := c9_catalog_adaptation wC9 bareTool (List.mem_singleton.mpr rfl)
  exact ⟨h.1, h.2.1, h.2.2.1 rfl, h.2.2.2 rfl⟩

/-
  Claim C10.
-/

/-- CLI world for the C10 counterexample: the server-script path does not
exist. -/
def wC10a : CliWorld :=
  { rawExists := fun _ => false
    cw := ⟨fun s => s, fun _ => false, fun _ => Except.ok ⟨0⟩⟩
    membersOut := []
    chatOut := [] }

/-- CLI world for the connection-failure path: the path exists but the
connection fails. -/
def wC10b : CliWorld :=
  { rawExists := fun _ => true
    cw := ⟨fun s => s, fun _ => true, fun _ => Except.error "spawn failed"⟩
    membersOut := []
    chatOut := [] }

/-- C10 (counterexample): when the server-script path does not exist, the
entry point prints a message but finishes with exit status 0, not a
non-zero status; likewise when the connection fails. -/
theorem c10_counterexample :
    (mainRun wC10a "missing.py" true false).1 =
      ["Error: Server script \x27missing.py\x27 not found"] ∧
    (mainRun wC10a "missing.py" true false).2 = 0 ∧
    (mainRun wC10b "server.py" false true).2 = 0 := by
  refine ⟨rfl, rfl, rfl⟩

/-- C10 (amended): for every invocation of the entry point where the
server-script path does not exist or the connection fails, the process
prints a human-readable message and exits with status zero — the failure
is reported in the output only, not in the exit status. -/
theorem c10_exit_status (w : CliWorld) (p : String) (ce : ConnError)
    (members chatMode : Bool) :
    (w.rawExists p = false →
      mainRun w p members chatMode =
        (["Error: Server script \x27" ++ p ++ "\x27 not found"], 0)) ∧
    (w.rawExists p = true →
      (connectToServer w.cw p).result = Except.error ce →
      mainRun w p members chatMode = ([connErrorMessage ce], 0)) := by
  constructor
  · intro h
    unfold mainRun
    simp [h]
  · intro h hc
    unfold mainRun
    simp [h, hc]

/-- Witness for C10 (amended) at concrete worlds, for both failure
paths. -/
theorem c10_witness :
    mainRun wC10a "missing.py" true false =
      (["Error: Server script \x27missing.py\x27 not found"], 0) ∧
    mainRun wC10b "server.py" false true =
      (["Failed to connect to server: spawn failed"], 0) := by
  have ha := (c10_exit_status wC10a "missing.py"
      (ConnError.handshakeFailed "spawn failed") true false).1 rfl
  have hb := (c10_exit_status wC10b "server.py"
      (ConnError.handshakeFailed "spawn failed") false true).2 rfl rfl
  exact ⟨by rw [ha]; rfl, by rw [hb]; rfl⟩

end MCPClient
